import Mathlib

/-!
Shallow embedding of the network-cutover-wizard repository:
`src/lambdas/api/lambda_function.py` (Control API) and
`src/lambdas/workflow/lambda_function.py` (Step Runner).

Statuses and step statuses are stored as strings in DynamoDB, so they are
modelled as `String` here, using the exact literals written by the source.
Timestamps (`datetime.now(timezone.utc).isoformat()`) and generated ids
(`uuid.uuid4()`) are external inputs and are passed in as parameters.
-/

/-- The three step names the Step Runner dispatches on. -/
inductive Step
| precheck
| execute
| validate
deriving DecidableEq, Repr

/-- The step name as the string used in the source. -/
def Step.name : Step → String
| .precheck => "precheck"
| .execute => "execute"
| .validate => "validate"

/-- The `steps` map of a project record: exactly the keys
`precheck`, `execute`, `validate`, each holding a status string. -/
structure Steps where
  precheck : String
  execute : String
  validate : String
deriving DecidableEq, Repr

/-- Write one step's entry of the `steps` map (the effect of the
DynamoDB path `#steps.#s` in `_update_step`). -/
def Steps.set (ss : Steps) (s : Step) (v : String) : Steps :=
  match s with
  | .precheck => { ss with precheck := v }
  | .execute => { ss with execute := v }
  | .validate => { ss with validate := v }

/-- A project record as stored in the DynamoDB table. The three summary
attributes are absent until the corresponding step writes them, hence
`Option`. The attribute called `status` in the table is the spec's
`overallStatus`. -/
structure Project where
  projectId : String
  name : String
  type : String
  pattern : String
  status : String
  createdAt : String
  updatedAt : String
  steps : Steps
  precheckSummary : Option String
  executionSummary : Option String
  validationSummary : Option String
deriving DecidableEq, Repr

/-- A single `table.update_item` call: the key and the list of attribute
assignments contained in its one `UpdateExpression` (applied together,
atomically, by DynamoDB). Attribute paths are flattened to strings,
`#steps.#s` becoming `"steps." ++ stepName`. -/
structure UpdateOp where
  key : String
  assignments : List (String × String)
deriving DecidableEq, Repr

/-- Effect of one assignment of an `UpdateExpression` on a record. -/
def applyAssignment (p : Project) (kv : String × String) : Project :=
  if kv.1 = "updatedAt" then { p with updatedAt := kv.2 }
  else if kv.1 = "status" then { p with status := kv.2 }
  else if kv.1 = "steps.precheck" then { p with steps := p.steps.set .precheck kv.2 }
  else if kv.1 = "steps.execute" then { p with steps := p.steps.set .execute kv.2 }
  else if kv.1 = "steps.validate" then { p with steps := p.steps.set .validate kv.2 }
  else if kv.1 = "precheckSummary" then { p with precheckSummary := some kv.2 }
  else if kv.1 = "executionSummary" then { p with executionSummary := some kv.2 }
  else if kv.1 = "validationSummary" then { p with validationSummary := some kv.2 }
  else p

/-- Effect of a whole `update_item` call on a record. -/
def UpdateOp.applyTo (op : UpdateOp) (p : Project) : Project :=
  op.assignments.foldl applyAssignment p

/-- The table: at most one record per projectId key. -/
def Store := String → Option Project

/-- A record used when `update_item` hits an absent key (DynamoDB upserts:
the created item holds only the assigned attributes; unassigned ones are
modelled as empty/none). No claim exercises this branch. -/
def blankProject : Project :=
  { projectId := "", name := "", type := "", pattern := "", status := ""
  , createdAt := "", updatedAt := ""
  , steps := { precheck := "", execute := "", validate := "" }
  , precheckSummary := none, executionSummary := none, validationSummary := none }

/-- `table.update_item`: rewrite the record under `op.key`. -/
def Store.applyOp (st : Store) (op : UpdateOp) : Store :=
  fun k => if k = op.key then some (op.applyTo ((st op.key).getD blankProject)) else st k

/-!
## Step Runner — `src/lambdas/workflow/lambda_function.py`
-/

/-- `_update_step(project_id, step, step_status, overall_status, extra_attrs)`:
builds the single `update_item` call. `updatedAt` and the step entry are
always assigned; `#status` is assigned when `overall_status` is truthy;
each extra attribute is appended. -/
def updateStepOp (project_id : String) (step : Step) (step_status : String)
    (overall_status : Option String) (extra_attrs : List (String × String))
    (now : String) : UpdateOp :=
  { key := project_id
  , assignments :=
      [("updatedAt", now), ("steps." ++ step.name, step_status)]
      ++ (match overall_status with
          | some s => [("status", s)]
          | none => [])
      ++ extra_attrs }

/-- The value returned by each `do_*` function:
`{"projectId": ..., "step": ..., "result": "OK"}`. -/
structure StepResult where
  projectId : String
  step : String
  result : String
deriving DecidableEq, Repr

/-- `do_precheck(project_id)` at time `now`: the returned dict and the one
store write it performs. -/
def do_precheck (project_id now : String) : StepResult × UpdateOp :=
  ( { projectId := project_id, step := "precheck", result := "OK" }
  , updateStepOp project_id .precheck "OK" (some "PRECHECK_COMPLETE")
      [("precheckSummary",
        "Connectivity, routes, VPN, firewalls look healthy (simulated).")] now )

/-- `do_execute(project_id)` at time `now`. -/
def do_execute (project_id now : String) : StepResult × UpdateOp :=
  ( { projectId := project_id, step := "execute", result := "OK" }
  , updateStepOp project_id .execute "OK" (some "IN_PROGRESS")
      [("executionSummary",
        "Network pattern applied (simulated Lambda/Terraform).")] now )

/-- `do_validate(project_id)` at time `now`. -/
def do_validate (project_id now : String) : StepResult × UpdateOp :=
  ( { projectId := project_id, step := "validate", result := "OK" }
  , updateStepOp project_id .validate "OK" (some "SUCCESS")
      [("validationSummary",
        "Post-cutover checks passed (simulated).")] now )

/-- The event handed to the workflow handler by Step Functions; `none`
models an absent field. -/
structure StepEvent where
  step : Option String
  projectId : Option String
deriving DecidableEq, Repr

/-- The two `ValueError`s the workflow handler raises:
`"Missing step or projectId"` and `"Unknown step {step}"`. -/
inductive WorkflowErr
| invalidInput
| unknownStep (s : String)
deriving DecidableEq, Repr

/-- The workflow `handler(event, context)` at time `now`: the result (or
raised error) together with the list of store writes performed. Python
truthiness: `not step` holds when the field is absent or the empty
string. -/
def workflowHandler (event : StepEvent) (now : String) :
    Except WorkflowErr StepResult × List UpdateOp :=
  match event.step, event.projectId with
  | some step, some project_id =>
    if step = "" ∨ project_id = "" then (.error .invalidInput, [])
    else if step = "precheck" then
      let r := do_precheck project_id now
      (.ok r.1, [r.2])
    else if step = "execute" then
      let r := do_execute project_id now
      (.ok r.1, [r.2])
    else if step = "validate" then
      let r := do_validate project_id now
      (.ok r.1, [r.2])
    else (.error (.unknownStep step), [])
  | _, _ => (.error .invalidInput, [])

/-- One Step Runner invocation against a store: result plus the store
after its writes have landed. -/
def runWorkflow (store : Store) (event : StepEvent) (now : String) :
    Except WorkflowErr StepResult × Store :=
  let r := workflowHandler event now
  (r.1, r.2.foldl Store.applyOp store)

/-!
## Control API — `src/lambdas/api/lambda_function.py`
-/

/-- Response bodies produced by the Control API, modelled structurally
(the source JSON-encodes them). -/
inductive ApiBody
| err (message : String)
| created (projectId : String) (project : Project)
| projectList (items : List Project)
| proj (p : Project)
| started (message executionArn projectId : String)
deriving DecidableEq, Repr

/-- `_response(status, body)` keeps only status code and body here;
the CORS headers are constant. -/
structure HttpResponse where
  statusCode : Nat
  body : ApiBody
deriving DecidableEq, Repr

/-- Side effects of one API call on its collaborators, in order:
a `put_item`, an `update_item`, or a Step Functions `start_execution`
(whose input payload is `{"projectId": ...}`). -/
inductive Effect
| putItem (item : Project)
| updateItem (op : UpdateOp)
| startExecution (inputProjectId : String)
deriving DecidableEq, Repr

/-- The parsed JSON body of `POST /projects`; `none` models an absent key
(`payload.get` with a default). -/
structure CreatePayload where
  name : Option String
  type : Option String
  pattern : Option String
deriving DecidableEq, Repr

/-- Python truthiness of an optional string: absent and `""` are falsy. -/
def truthy : Option String → Bool
| none => false
| some s => s ≠ ""

/-- `create_project(payload)` with the generated `str(uuid.uuid4())` and
the current time passed in: response plus effects. -/
def create_project (payload : CreatePayload) (freshId now : String) :
    HttpResponse × List Effect :=
  let project_type := payload.type.getD "generic"
  let pat := payload.pattern.getD "standard"
  if truthy payload.name then
    let item : Project :=
      { projectId := freshId, name := payload.name.getD "", type := project_type
      , pattern := pat, status := "REGISTERED", createdAt := now, updatedAt := now
      , steps := { precheck := "PENDING", execute := "PENDING", validate := "PENDING" }
      , precheckSummary := none, executionSummary := none, validationSummary := none }
    ({ statusCode := 201, body := .created freshId item }, [.putItem item])
  else
    ({ statusCode := 400, body := .err "Missing 'name'" }, [])

/-- `get_project(project_id)`: a pure read, no effects. -/
def get_project (store : Store) (project_id : String) : HttpResponse :=
  match store project_id with
  | none => { statusCode := 404, body := .err "Project not found" }
  | some item => { statusCode := 200, body := .proj item }

/-- `start_cutover(project_id)` at time `now`, with the execution ARN the
Step Functions client returns passed in: response plus effects in the
order the source performs them (status write first, then trigger). -/
def start_cutover (store : Store) (project_id now execArn : String) :
    HttpResponse × List Effect :=
  match store project_id with
  | none => ({ statusCode := 404, body := .err "Project not found" }, [])
  | some _item =>
    ({ statusCode := 200
     , body := .started "Cutover started" execArn project_id }
    , [ .updateItem
         { key := project_id
         , assignments := [("status", "SCHEDULED"), ("updatedAt", now)] }
      , .startExecution project_id ])

/-- Apply one API effect to the store (`start_execution` touches only the
external engine, not the store). `put_item` overwrites any record under
the same key. -/
def applyEffect (st : Store) : Effect → Store
| .putItem item => fun k => if k = item.projectId then some item else st k
| .updateItem op => st.applyOp op
| .startExecution _ => st

/-!
## Operation sequences (for the no-regression claim)
-/

/-- One invocation of the Control API or the Step Runner, with its
external inputs (fresh id, timestamp, execution ARN) attached. -/
inductive Op
| create (payload : CreatePayload) (freshId now : String)
| listAll
| get (project_id : String)
| start (project_id now execArn : String)
| stepRun (event : StepEvent) (now : String)

/-- Effect of one operation on the store (reads leave it unchanged). -/
def runOp (st : Store) : Op → Store
| .create payload freshId now => ((create_project payload freshId now).2).foldl applyEffect st
| .listAll => st
| .get _ => st
| .start project_id now execArn =>
    ((start_cutover st project_id now execArn).2).foldl applyEffect st
| .stepRun event now => ((workflowHandler event now).2).foldl Store.applyOp st

/-- The phase ordering of §4.1 of the spec:
REGISTERED < SCHEDULED < PRECHECK_COMPLETE < IN_PROGRESS < SUCCESS. -/
def phaseIndex : String → Option Nat
| "REGISTERED" => some 0
| "SCHEDULED" => some 1
| "PRECHECK_COMPLETE" => some 2
| "IN_PROGRESS" => some 3
| "SUCCESS" => some 4
| _ => none

/-- A store holding exactly one record. -/
def singletonStore (p : Project) : Store :=
  fun k => if k = p.projectId then some p else none

/-- The store with no records. -/
def emptyStore : Store := fun _ => none

/-- The overall status each step writes (`overall_status` argument of
`_update_step` at each `do_*` call site). -/
def Step.targetStatus : Step → String
| .precheck => "PRECHECK_COMPLETE"
| .execute => "IN_PROGRESS"
| .validate => "SUCCESS"

/-- The `extra_attrs` key each `do_*` call site passes. -/
def Step.summaryKey : Step → String
| .precheck => "precheckSummary"
| .execute => "executionSummary"
| .validate => "validationSummary"

/-- The `extra_attrs` value each `do_*` call site passes. -/
def Step.summaryText : Step → String
| .precheck => "Connectivity, routes, VPN, firewalls look healthy (simulated)."
| .execute => "Network pattern applied (simulated Lambda/Terraform)."
| .validate => "Post-cutover checks passed (simulated)."

/-- A concrete record that has already reached `SUCCESS`. -/
def sampleSuccess : Project :=
  { projectId := "p1", name := "vpc-migration", type := "generic", pattern := "standard"
  , status := "SUCCESS", createdAt := "T0", updatedAt := "T4"
  , steps := { precheck := "OK", execute := "OK", validate := "OK" }
  , precheckSummary := none, executionSummary := none, validationSummary := none }

/-- A concrete record still `SCHEDULED`, with `steps.precheck = PENDING`. -/
def sampleScheduled : Project :=
  { projectId := "p2", name := "vpc-migration", type := "generic", pattern := "standard"
  , status := "SCHEDULED", createdAt := "T0", updatedAt := "T1"
  , steps := { precheck := "PENDING", execute := "PENDING", validate := "PENDING" }
  , precheckSummary := none, executionSummary := none, validationSummary := none }

/-- C1 fails on the code: on a record with `steps.precheck = PENDING` and
`overallStatus = SCHEDULED`, invoking the Step Runner with step `execute`
succeeds (no InvalidTransition error — none exists in the code), changes
the stored record, and applies the execute transition. -/
theorem C1_counterexample :
    (runWorkflow (singletonStore sampleScheduled) ⟨some "execute", some "p2"⟩ "T2").1
        = .ok { projectId := "p2", step := "execute", result := "OK" } ∧
    (runWorkflow (singletonStore sampleScheduled) ⟨some "execute", some "p2"⟩ "T2").2 "p2"
        ≠ some sampleScheduled ∧
    sampleScheduled.steps.precheck = "PENDING" ∧
    sampleScheduled.status = "SCHEDULED" ∧
    ((runWorkflow (singletonStore sampleScheduled) ⟨some "execute", some "p2"⟩ "T2").2 "p2").map
        (fun p => (p.steps.execute, p.status)) = some ("OK", "IN_PROGRESS") :=
  ⟨rfl, by decide, rfl, rfl, rfl⟩

/-- C1 amended: invoking the Step Runner with step `execute` on any stored
record — in particular one whose `steps.precheck` is not OK — succeeds with
result OK and unconditionally applies the execute transition
(`steps.execute := OK`, `overallStatus := IN_PROGRESS`, `updatedAt := now`,
execution summary attached); the Step Runner checks no precondition and
has no InvalidTransition error. -/
theorem C1_execute_applied_unconditionally (store : Store) (pid now : String)
    (p : Project) (hp : store pid = some p) (hpid : pid ≠ "") :
    (runWorkflow store ⟨some "execute", some pid⟩ now).1
        = .ok { projectId := pid, step := "execute", result := "OK" } ∧
    (runWorkflow store ⟨some "execute", some pid⟩ now).2 pid
        = some { p with
                  updatedAt := now
                , steps := p.steps.set .execute "OK"
                , status := "IN_PROGRESS"
                , executionSummary :=
                    some "Network pattern applied (simulated Lambda/Terraform)." } := by
  constructor
  · simp [runWorkflow, workflowHandler, do_execute, hpid]
  · simp [runWorkflow, workflowHandler, do_execute, updateStepOp, hpid, Store.applyOp,
      UpdateOp.applyTo, applyAssignment, hp, Step.name, Steps.set]

/-- Witness for C1's amended theorem at a concrete store and record. -/
theorem C1_execute_applied_unconditionally_witness :
    singletonStore sampleScheduled "p2" = some sampleScheduled ∧ "p2" ≠ "" ∧
    (runWorkflow (singletonStore sampleScheduled) ⟨some "execute", some "p2"⟩ "T2").1
        = .ok { projectId := "p2", step := "execute", result := "OK" } :=
  ⟨by decide, by decide,
   (C1_execute_applied_unconditionally (singletonStore sampleScheduled) "p2" "T2"
      sampleScheduled (by decide) (by decide)).1⟩

/-- C2 fails on the code: a single StartCutover on a record already in
`SUCCESS` (phase 4) reverts its `overallStatus` to `SCHEDULED` (phase 1),
an earlier phase, not `FAILED`. -/
theorem C2_counterexample :
    sampleSuccess.status = "SUCCESS" ∧
    ((runOp (singletonStore sampleSuccess) (.start "p1" "T5" "arn-1")) "p1").map
        Project.status = some "SCHEDULED" ∧
    phaseIndex "SUCCESS" = some 4 ∧ phaseIndex "SCHEDULED" = some 1 ∧
    "SCHEDULED" ≠ "FAILED" :=
  ⟨rfl, by decide, rfl, rfl, by decide⟩

/-- C2 amended: `overallStatus` is not protected against regression — each
mutating operation overwrites it with that operation's fixed target
(StartCutover: `SCHEDULED`; precheck: `PRECHECK_COMPLETE`; execute:
`IN_PROGRESS`; validate: `SUCCESS`) regardless of the record's current
phase, with no conditional guard, so a later-phase record can revert to an
earlier phase. -/
theorem C2_mutations_set_fixed_status (store : Store) (pid now arn : String)
    (p : Project) (hp : store pid = some p) (hpid : pid ≠ "") :
    ((runOp store (.start pid now arn)) pid).map Project.status = some "SCHEDULED" ∧
    ∀ s : Step,
      ((runOp store (.stepRun ⟨some s.name, some pid⟩ now)) pid).map Project.status
        = some s.targetStatus := by
  constructor
  · simp [runOp, start_cutover, hp, applyEffect, Store.applyOp, UpdateOp.applyTo,
      applyAssignment]
  · intro s
    cases s <;>
      simp [runOp, workflowHandler, do_precheck, do_execute, do_validate, updateStepOp,
        hpid, Step.name, Step.targetStatus, Store.applyOp, UpdateOp.applyTo,
        applyAssignment, hp, Steps.set]

/-- Witness for C2's amended theorem at a concrete store and record. -/
theorem C2_mutations_set_fixed_status_witness :
    singletonStore sampleSuccess "p1" = some sampleSuccess ∧ "p1" ≠ "" ∧
    ((runOp (singletonStore sampleSuccess) (.start "p1" "T5" "arn-1")) "p1").map
        Project.status = some "SCHEDULED" :=
  ⟨by decide, by decide,
   (C2_mutations_set_fixed_status (singletonStore sampleSuccess) "p1" "T5" "arn-1"
      sampleSuccess (by decide) (by decide)).1⟩

/-- C3 fails on the code: `start_cutover` checks only that the record
exists, not that it is `REGISTERED`: applied to a record in `SUCCESS` it
is not rejected — it returns HTTP 200 and writes `SCHEDULED`. -/
theorem C3_counterexample :
    sampleSuccess.status = "SUCCESS" ∧ sampleSuccess.status ≠ "REGISTERED" ∧
    (start_cutover (singletonStore sampleSuccess) "p1" "T5" "arn-1").1.statusCode = 200 ∧
    ((runOp (singletonStore sampleSuccess) (.start "p1" "T5" "arn-1")) "p1").map
        Project.status = some "SCHEDULED" :=
  ⟨rfl, by decide, rfl, by decide⟩

/-- C3 amended: the start transition applied by StartCutover results in
`overallStatus = SCHEDULED`, but it requires only that the record exists:
it is applied unconditionally to a record in any status, and the only
rejection is `NotFound` (HTTP 404) for an absent record. -/
theorem C3_start_applied_regardless_of_status (store : Store)
    (pid now arn : String) (p : Project) (hp : store pid = some p) :
    (start_cutover store pid now arn).1.statusCode = 200 ∧
    ((runOp store (.start pid now arn)) pid)
        = some { p with status := "SCHEDULED", updatedAt := now } := by
  constructor
  · simp [start_cutover, hp]
  · simp [runOp, start_cutover, hp, applyEffect, Store.applyOp, UpdateOp.applyTo,
      applyAssignment]

/-- Witness for C3's amended theorem at a concrete store and record. -/
theorem C3_start_applied_regardless_of_status_witness :
    singletonStore sampleSuccess "p1" = some sampleSuccess ∧
    (start_cutover (singletonStore sampleSuccess) "p1" "T5" "arn-1").1.statusCode = 200 :=
  ⟨by decide,
   (C3_start_applied_regardless_of_status (singletonStore sampleSuccess) "p1" "T5" "arn-1"
      sampleSuccess (by decide)).1⟩

/-- C4 fails on the code: after a successful precheck invocation at time
T2, repeating the same invocation at time T3 leaves a record that differs
from the first result — `updatedAt` is rewritten to the second call's
timestamp, so a field of the stored record does differ. -/
theorem C4_counterexample :
    (runWorkflow (singletonStore sampleScheduled) ⟨some "precheck", some "p2"⟩ "T2").1
        = .ok { projectId := "p2", step := "precheck", result := "OK" } ∧
    ((runWorkflow
        (runWorkflow (singletonStore sampleScheduled) ⟨some "precheck", some "p2"⟩ "T2").2
        ⟨some "precheck", some "p2"⟩ "T3").2 "p2"
      ≠ (runWorkflow (singletonStore sampleScheduled) ⟨some "precheck", some "p2"⟩ "T2").2 "p2") ∧
    ((runWorkflow (singletonStore sampleScheduled) ⟨some "precheck", some "p2"⟩ "T2").2 "p2").map
        Project.updatedAt = some "T2" ∧
    ((runWorkflow
        (runWorkflow (singletonStore sampleScheduled) ⟨some "precheck", some "p2"⟩ "T2").2
        ⟨some "precheck", some "p2"⟩ "T3").2 "p2").map
        Project.updatedAt = some "T3" :=
  ⟨rfl, by decide, rfl, rfl⟩

/-- C4 amended: repeating a succeeded Step Runner invocation with the same
`(step, projectId)` succeeds again with the identical returned result and
rewrites the same step status, overall status and summary, so the stored
record after the second call equals the record after the first in every
field except `updatedAt`, which is set to the second call's timestamp
(the records coincide exactly when the two timestamps coincide). -/
theorem C4_idempotent_up_to_updatedAt (store : Store) (pid now1 now2 : String)
    (s : Step) (p : Project) (hp : store pid = some p) (hpid : pid ≠ "") :
    (runWorkflow (runWorkflow store ⟨some s.name, some pid⟩ now1).2
        ⟨some s.name, some pid⟩ now2).1
      = (runWorkflow store ⟨some s.name, some pid⟩ now1).1 ∧
    (runWorkflow (runWorkflow store ⟨some s.name, some pid⟩ now1).2
        ⟨some s.name, some pid⟩ now2).2 pid
      = ((runWorkflow store ⟨some s.name, some pid⟩ now1).2 pid).map
          (fun q => { q with updatedAt := now2 }) := by
  cases s <;>
    simp [runWorkflow, workflowHandler, do_precheck, do_execute, do_validate,
      updateStepOp, hpid, Step.name, Store.applyOp, UpdateOp.applyTo,
      applyAssignment, hp, Steps.set]

/-- Witness for C4's amended theorem at a concrete store and record. -/
theorem C4_idempotent_up_to_updatedAt_witness :
    singletonStore sampleScheduled "p2" = some sampleScheduled ∧ "p2" ≠ "" ∧
    (runWorkflow
        (runWorkflow (singletonStore sampleScheduled) ⟨some (Step.precheck).name, some "p2"⟩ "T2").2
        ⟨some (Step.precheck).name, some "p2"⟩ "T3").1
      = (runWorkflow (singletonStore sampleScheduled)
          ⟨some (Step.precheck).name, some "p2"⟩ "T2").1 :=
  ⟨by decide, by decide,
   (C4_idempotent_up_to_updatedAt (singletonStore sampleScheduled) "p2" "T2" "T3"
      .precheck sampleScheduled (by decide) (by decide)).1⟩

/-- C5: every successful Step Runner invocation performs exactly one store
update (one `update_item` call with a single UpdateExpression), and that
one update assigns the invoked step's status, the overall status,
`updatedAt` and the step's diagnostic summary together — there is no
reachable store state between them. -/
theorem C5_single_atomic_update (s : Step) (pid now : String) (hpid : pid ≠ "") :
    ∃ op : UpdateOp,
      (workflowHandler ⟨some s.name, some pid⟩ now).2 = [op] ∧
      op.key = pid ∧
      ("updatedAt", now) ∈ op.assignments ∧
      ("steps." ++ s.name, "OK") ∈ op.assignments ∧
      ("status", s.targetStatus) ∈ op.assignments ∧
      (s.summaryKey, s.summaryText) ∈ op.assignments := by
  refine ⟨updateStepOp pid s "OK" (some s.targetStatus)
      [(s.summaryKey, s.summaryText)] now, ?_, ?_, ?_, ?_, ?_, ?_⟩ <;>
    cases s <;>
      simp [workflowHandler, do_precheck, do_execute, do_validate, updateStepOp,
        hpid, Step.name, Step.targetStatus, Step.summaryKey, Step.summaryText]

/-- Witness for C5 at a concrete step and project id. -/
theorem C5_single_atomic_update_witness :
    ("p2" : String) ≠ "" ∧
    ∃ op : UpdateOp,
      (workflowHandler ⟨some (Step.precheck).name, some "p2"⟩ "T2").2 = [op] ∧
      op.key = "p2" ∧
      ("updatedAt", "T2") ∈ op.assignments ∧
      ("steps." ++ (Step.precheck).name, "OK") ∈ op.assignments ∧
      ("status", (Step.precheck).targetStatus) ∈ op.assignments ∧
      ((Step.precheck).summaryKey, (Step.precheck).summaryText) ∈ op.assignments :=
  ⟨by decide, C5_single_atomic_update .precheck "p2" "T2" (by decide)⟩

/-- C6: StartCutover returns HTTP 404 with no store write and no
orchestration trigger when no record exists; when the record exists, its
effect list is exactly one status write (to `SCHEDULED`, with `updatedAt`)
followed by exactly one `start_execution` trigger — persisted strictly
before triggering — and the response carries the execution reference and
the project id. -/
theorem C6_start_cutover_contract (store : Store) (pid now arn : String) :
    (store pid = none →
      start_cutover store pid now arn
        = ({ statusCode := 404, body := .err "Project not found" }, [])) ∧
    (∀ p, store pid = some p →
      start_cutover store pid now arn
        = ({ statusCode := 200, body := .started "Cutover started" arn pid }
          , [ .updateItem { key := pid
                          , assignments := [("status", "SCHEDULED"), ("updatedAt", now)] }
            , .startExecution pid ]) ∧
      ((runOp store (.start pid now arn)) pid).map Project.status = some "SCHEDULED") := by
  constructor
  · intro h
    simp [start_cutover, h]
  · intro p hp
    constructor
    · simp [start_cutover, hp]
    · simp [runOp, start_cutover, hp, applyEffect, Store.applyOp, UpdateOp.applyTo,
        applyAssignment]

/-- Witness for C6 at a concrete absent id and a concrete present record. -/
theorem C6_start_cutover_contract_witness :
    (start_cutover emptyStore "nope" "T5" "arn-1"
        = ({ statusCode := 404, body := .err "Project not found" }, [])) ∧
    (start_cutover (singletonStore sampleSuccess) "p1" "T5" "arn-1"
        = ({ statusCode := 200, body := .started "Cutover started" "arn-1" "p1" }
          , [ .updateItem { key := "p1"
                          , assignments := [("status", "SCHEDULED"), ("updatedAt", "T5")] }
            , .startExecution "p1" ])) :=
  ⟨(C6_start_cutover_contract emptyStore "nope" "T5" "arn-1").1 rfl,
   ((C6_start_cutover_contract (singletonStore sampleSuccess) "p1" "T5" "arn-1").2
      sampleSuccess (by decide)).1⟩

/-- C7: CreateProject returns HTTP 400 and performs no write exactly when
`name` is absent or empty; for any non-empty name it emits one `put_item`
of a record carrying the injected fresh id, the given name, defaulted
`type`/`pattern` when omitted, `overallStatus = REGISTERED`, all three
steps `PENDING`, and `createdAt = updatedAt = now` (the generated
`uuid.uuid4()` id is an external input `freshId`; the record's id equals
it, so distinct generated ids give distinct records). -/
theorem C7_create_project_contract (payload : CreatePayload) (freshId now : String) :
    ((payload.name = none ∨ payload.name = some "") →
      create_project payload freshId now
        = ({ statusCode := 400, body := .err "Missing 'name'" }, [])) ∧
    (∀ n, payload.name = some n → n ≠ "" →
      create_project payload freshId now
        = ({ statusCode := 201
           , body := .created freshId
              { projectId := freshId, name := n
              , type := payload.type.getD "generic"
              , pattern := payload.pattern.getD "standard"
              , status := "REGISTERED", createdAt := now, updatedAt := now
              , steps := { precheck := "PENDING", execute := "PENDING", validate := "PENDING" }
              , precheckSummary := none, executionSummary := none
              , validationSummary := none } }
          , [ .putItem
              { projectId := freshId, name := n
              , type := payload.type.getD "generic"
              , pattern := payload.pattern.getD "standard"
              , status := "REGISTERED", createdAt := now, updatedAt := now
              , steps := { precheck := "PENDING", execute := "PENDING", validate := "PENDING" }
              , precheckSummary := none, executionSummary := none
              , validationSummary := none } ])) := by
  constructor
  · rintro (h | h) <;> simp [create_project, h, truthy]
  · intro n hn hne
    simp [create_project, hn, truthy, hne]

/-- Witness for C7 at a concrete invalid and a concrete valid payload. -/
theorem C7_create_project_contract_witness :
    (create_project { name := none, type := none, pattern := none } "id-1" "T0"
        = ({ statusCode := 400, body := .err "Missing 'name'" }, [])) ∧
    (create_project { name := some "vpc-migration", type := none, pattern := none }
        "id-1" "T0").1.statusCode = 201 :=
  ⟨(C7_create_project_contract { name := none, type := none, pattern := none }
      "id-1" "T0").1 (Or.inl rfl),
   by
    rw [(C7_create_project_contract { name := some "vpc-migration", type := none, pattern := none }
      "id-1" "T0").2 "vpc-migration" rfl (by decide)]⟩

/-- C8 fails on the code at an empty-string step: the `step` field is
present (value `""`) and is not one of the three recognized names, yet
the handler raises the missing-input `ValueError`, not the unknown-step
one. -/
theorem C8_counterexample :
    workflowHandler ⟨some "", some "p2"⟩ "T2" = (.error .invalidInput, []) ∧
    WorkflowErr.invalidInput ≠ WorkflowErr.unknownStep "" :=
  ⟨rfl, by decide⟩

/-- C8 amended: the handler fails with the missing-input error when `step`
or `projectId` is absent or empty (Python falsiness), and with the
unknown-step error when `step` is present, non-empty, and not one of
`precheck`, `execute`, `validate` while `projectId` is present and
non-empty; in every failure case the effect list is empty — no store
write occurs. -/
theorem C8_input_validation (event : StepEvent) (now : String) :
    ((truthy event.step = false ∨ truthy event.projectId = false) →
      workflowHandler event now = (.error .invalidInput, [])) ∧
    (∀ s pid, event.step = some s → event.projectId = some pid →
      s ≠ "" → pid ≠ "" → s ≠ "precheck" → s ≠ "execute" → s ≠ "validate" →
      workflowHandler event now = (.error (.unknownStep s), [])) := by
  constructor
  · intro h
    match hs : event.step, hpid : event.projectId with
    | none, _ => simp [workflowHandler, hs]
    | some s, none => simp [workflowHandler, hs, hpid]
    | some s, some pid =>
      rw [hs, hpid] at h
      rcases h with h | h <;> simp [truthy] at h <;>
        simp [workflowHandler, hs, hpid, h]
  · intro s pid hs hpid h1 h2 h3 h4 h5
    simp [workflowHandler, hs, hpid, h1, h2, h3, h4, h5]

/-- Witness for C8's amended theorem: an absent step and an unrecognized
step at concrete events. -/
theorem C8_input_validation_witness :
    workflowHandler ⟨none, some "p2"⟩ "T2" = (.error .invalidInput, []) ∧
    workflowHandler ⟨some "rollback", some "p2"⟩ "T2"
      = (.error (.unknownStep "rollback"), []) :=
  ⟨(C8_input_validation ⟨none, some "p2"⟩ "T2").1 (Or.inl rfl),
   (C8_input_validation ⟨some "rollback", some "p2"⟩ "T2").2 "rollback" "p2"
      rfl rfl (by decide) (by decide) (by decide) (by decide) (by decide)⟩

/-- C9: GetProject returns HTTP 404 with the not-found error body when no
record exists for the id (never a default or empty record), and returns
the stored record with HTTP 200 when one exists. -/
theorem C9_get_project_contract (store : Store) (pid : String) :
    (store pid = none →
      get_project store pid = { statusCode := 404, body := .err "Project not found" }) ∧
    (∀ p, store pid = some p →
      get_project store pid = { statusCode := 200, body := .proj p }) := by
  constructor
  · intro h
    simp [get_project, h]
  · intro p hp
    simp [get_project, hp]

/-- Witness for C9 at a concrete absent id and a concrete present record. -/
theorem C9_get_project_contract_witness :
    get_project emptyStore "nope" = { statusCode := 404, body := .err "Project not found" } ∧
    get_project (singletonStore sampleSuccess) "p1"
      = { statusCode := 200, body := .proj sampleSuccess } :=
  ⟨(C9_get_project_contract emptyStore "nope").1 rfl,
   (C9_get_project_contract (singletonStore sampleSuccess) "p1").2 sampleSuccess (by decide)⟩

/-- Every Step Runner trace is either empty or a single `_update_step`
write with step status `"OK"` and that step's fixed target overall
status. -/
lemma workflowHandler_ops (event : StepEvent) (now : String) :
    (workflowHandler event now).2 = [] ∨
    ∃ (s : Step) (pid : String),
      (workflowHandler event now).2
        = [updateStepOp pid s "OK" (some s.targetStatus)
            [(s.summaryKey, s.summaryText)] now] := by
  rcases event with ⟨st, pd⟩
  cases st with
  | none => left; rfl
  | some s =>
    cases pd with
    | none => left; rfl
    | some pid =>
      by_cases h0 : s = "" ∨ pid = ""
      · left; simp [workflowHandler, h0]
      · push_neg at h0
        obtain ⟨hs, hpid⟩ := h0
        by_cases h1 : s = "precheck"
        · right
          exact ⟨.precheck, pid, by
            simp [workflowHandler, hs, hpid, h1, do_precheck, Step.targetStatus,
              Step.summaryKey, Step.summaryText]⟩
        · by_cases h2 : s = "execute"
          · right
            exact ⟨.execute, pid, by
              simp [workflowHandler, hs, hpid, h1, h2, do_execute, Step.targetStatus,
                Step.summaryKey, Step.summaryText]⟩
          · by_cases h3 : s = "validate"
            · right
              exact ⟨.validate, pid, by
                simp [workflowHandler, hs, hpid, h1, h2, h3, do_validate,
                  Step.targetStatus, Step.summaryKey, Step.summaryText]⟩
            · left; simp [workflowHandler, hs, hpid, h1, h2, h3]

/-- Every successful Step Runner result is one of the three `do_*` return
values, whose `result` field is `"OK"`. -/
lemma workflowHandler_ok (event : StepEvent) (now : String) (r : StepResult)
    (h : (workflowHandler event now).1 = .ok r) : r.result = "OK" := by
  rcases event with ⟨st, pd⟩
  cases st with
  | none => simp [workflowHandler] at h
  | some s =>
    cases pd with
    | none => simp [workflowHandler] at h
    | some pid =>
      by_cases h0 : s = "" ∨ pid = ""
      · simp [workflowHandler, h0] at h
      · push_neg at h0
        obtain ⟨hs, hpid⟩ := h0
        by_cases h1 : s = "precheck"
        · have e : (workflowHandler ⟨some s, some pid⟩ now).1
              = .ok { projectId := pid, step := "precheck", result := "OK" } := by
            simp [workflowHandler, hs, hpid, h1, do_precheck]
          rw [e] at h
          injection h with h
          rw [← h]
        · by_cases h2 : s = "execute"
          · have e : (workflowHandler ⟨some s, some pid⟩ now).1
                = .ok { projectId := pid, step := "execute", result := "OK" } := by
              simp [workflowHandler, hs, hpid, h1, h2, do_execute]
            rw [e] at h
            injection h with h
            rw [← h]
          · by_cases h3 : s = "validate"
            · have e : (workflowHandler ⟨some s, some pid⟩ now).1
                  = .ok { projectId := pid, step := "validate", result := "OK" } := by
                simp [workflowHandler, hs, hpid, h1, h2, h3, do_validate]
              rw [e] at h
              injection h with h
              rw [← h]
            · simp [workflowHandler, hs, hpid, h1, h2, h3] at h

/-- C10: for every Step Runner invocation, a successful result always has
`result = "OK"`; and every store assignment it performs writes `"OK"` to a
step entry and never writes `"FAILED"` as the overall status — the FAILED
branch of the state machine is unreachable through this code. -/
theorem C10_step_runner_never_failed (event : StepEvent) (now : String) :
    (∀ r, (workflowHandler event now).1 = .ok r → r.result = "OK") ∧
    (∀ op ∈ (workflowHandler event now).2, ∀ kv ∈ op.assignments,
      ((kv.1 = "steps.precheck" ∨ kv.1 = "steps.execute" ∨ kv.1 = "steps.validate") →
        kv.2 = "OK") ∧
      (kv.1 = "status" → kv.2 ≠ "FAILED")) := by
  constructor
  · exact fun r => workflowHandler_ok event now r
  · intro op hop kv hkv
    rcases workflowHandler_ops event now with h | ⟨s, pid, h⟩
    · rw [h] at hop
      simp at hop
    · rw [h] at hop
      simp at hop
      subst hop
      simp [updateStepOp] at hkv
      rcases hkv with h1 | h1 | h1 | h1 <;> subst h1 <;>
        cases s <;>
          simp [Step.name, Step.targetStatus, Step.summaryKey, Step.summaryText]

/-- Witness for C10 at a concrete successful invocation. -/
theorem C10_step_runner_never_failed_witness :
    (workflowHandler ⟨some "precheck", some "p2"⟩ "T2").1
        = .ok { projectId := "p2", step := "precheck", result := "OK" } ∧
    ({ projectId := "p2", step := "precheck", result := "OK" } : StepResult).result = "OK" :=
  ⟨rfl, (C10_step_runner_never_failed ⟨some "precheck", some "p2"⟩ "T2").1
      { projectId := "p2", step := "precheck", result := "OK" } rfl⟩
